import Mathlib

/-!
Shallow embedding of the DNC (Do Not Call) check-and-cache core of the
`cadence_integration` repository:

* `src/lib/dnc-checker.ts` — `isFresh`, `checkCompanyBlacklistAPI`,
  `checkNationalDNCAPI`, `checkDnc`;
* `src/lib/supabase.ts` (`dncCache`) — `get`, `updateBlacklist`,
  `updateNational`, `deleteOldEntries`;
* `src/pages/api/webhooks/ghl.ts` — `updateContactDNC` and the webhook
  `handler` (tag merge, already-tagged short-circuit).

Timestamps are modelled as integer milliseconds since the epoch (the code
works with `Date.now()` / ISO strings whose ordering agrees with the
millisecond ordering).  Network effects are modelled by passing each
remote call's outcome in as data, and by returning an effect record that
lists exactly which checkers were invoked and which cache writes were
issued.  The Supabase table is a list of rows; upserts follow the
`onConflict: phone` semantics and SQL filter semantics (a comparison
against a NULL column selects nothing).
-/

namespace Cadence

/-- JavaScript truthiness of an optional string: `undefined`/`null` and the
empty string are falsy (`if (!s)`). -/
def jsStrTruthy : Option String → Bool
  | none => false
  | some s => s ≠ ""

/-- JavaScript `s || undefined` (equally `s || null`) on an optional string:
`null`/`undefined` and the empty string collapse to `none`. -/
def jsStrOr : Option String → Option String
  | none => none
  | some s => if s = "" then none else some s

/-! ## Data model: the `cadence_dnc_cache` table (migration 002 + `DncCacheEntry`) -/

/-- One row of `cadence_dnc_cache`.  Boolean columns default to `false`,
timestamp/text columns to NULL (`none`), mirroring the migration's column
defaults. -/
structure DncRow where
  phone : String
  is_company_blacklist : Bool := false
  blacklist_checked_at : Option Int := none
  is_national_dnc : Bool := false
  national_dnc_reason : Option String := none
  national_dnc_expiry : Option String := none
  national_checked_at : Option Int := none
  created_at : Int := 0
deriving Repr, DecidableEq

abbrev DncTable := List DncRow

/-- The partial column set supplied to a Supabase `upsert` call.  A `none`
field is a column the call does not mention (left unchanged on update,
defaulted on insert); a `some` field is a column the call sets, possibly
to NULL for the doubly-optional text columns. -/
structure DncPatch where
  is_company_blacklist : Option Bool := none
  blacklist_checked_at : Option Int := none
  is_national_dnc : Option Bool := none
  national_dnc_reason : Option (Option String) := none
  national_dnc_expiry : Option (Option String) := none
  national_checked_at : Option Int := none

/-- Apply a patch to an existing row: mentioned columns are overwritten,
unmentioned columns keep their value. -/
def applyPatch (r : DncRow) (p : DncPatch) : DncRow :=
  { r with
    is_company_blacklist := p.is_company_blacklist.getD r.is_company_blacklist
    blacklist_checked_at :=
      match p.blacklist_checked_at with
      | some t => some t
      | none => r.blacklist_checked_at
    is_national_dnc := p.is_national_dnc.getD r.is_national_dnc
    national_dnc_reason := p.national_dnc_reason.getD r.national_dnc_reason
    national_dnc_expiry := p.national_dnc_expiry.getD r.national_dnc_expiry
    national_checked_at :=
      match p.national_checked_at with
      | some t => some t
      | none => r.national_checked_at }

/-- Insert path of an upsert: a fresh row with the patch's columns set and
every other column at its migration default (`created_at` is the insert
time). -/
def newRowFromPatch (phone : String) (p : DncPatch) (now : Int) : DncRow :=
  { phone := phone
    is_company_blacklist := p.is_company_blacklist.getD false
    blacklist_checked_at := p.blacklist_checked_at
    is_national_dnc := p.is_national_dnc.getD false
    national_dnc_reason := p.national_dnc_reason.getD none
    national_dnc_expiry := p.national_dnc_expiry.getD none
    national_checked_at := p.national_checked_at
    created_at := now }

/-- Supabase `upsert(..., { onConflict: 'phone' })`: update the row keyed by
`phone` if one exists, otherwise insert a fresh row. -/
def upsertDnc (t : DncTable) (phone : String) (p : DncPatch) (now : Int) : DncTable :=
  if t.any (fun r => r.phone == phone) then
    t.map (fun r => if r.phone == phone then applyPatch r p else r)
  else
    t ++ [newRowFromPatch phone p now]

/-- `dncCache.get(phone)`: `.eq('phone', phone).single()` — exactly one
matching row yields that row, zero (PGRST116) or several matches yield
`null`. -/
def dncCacheGet (t : DncTable) (phone : String) : Option DncRow :=
  match t.filter (fun r => r.phone == phone) with
  | [r] => some r
  | _ => none

/-- `dncCache.updateBlacklist(phone, isOnBlacklist)`: upsert supplying only
`phone`, `is_company_blacklist` and `blacklist_checked_at = now`. -/
def updateBlacklist (t : DncTable) (phone : String) (isOnBlacklist : Bool) (now : Int) : DncTable :=
  upsertDnc t phone
    { is_company_blacklist := some isOnBlacklist
      blacklist_checked_at := some now } now

/-- `dncCache.updateNational(phone, isOnNational, reason?, expiry?)`: upsert
supplying only the national columns (`reason || null`, `expiry || null`)
and `national_checked_at = now`. -/
def updateNational (t : DncTable) (phone : String) (isOnNational : Bool)
    (reason expiry : Option String) (now : Int) : DncTable :=
  upsertDnc t phone
    { is_national_dnc := some isOnNational
      national_dnc_reason := some (jsStrOr reason)
      national_dnc_expiry := some (jsStrOr expiry)
      national_checked_at := some now } now

/-- SQL `column < cutoff` on a nullable timestamp column: a NULL value
compares to NULL, which the WHERE clause does not select. -/
def sqlLt (v : Option Int) (cutoff : Int) : Bool :=
  match v with
  | some x => x < cutoff
  | none => false

/-- A row matched by `deleteOldEntries`'s two chained `.lt` filters. -/
def staleForDelete (cutoff : Int) (r : DncRow) : Bool :=
  sqlLt r.blacklist_checked_at cutoff && sqlLt r.national_checked_at cutoff

/-- `dncCache.deleteOldEntries(olderThanDays)`: cutoff is `now` minus
`olderThanDays` days; delete rows where `blacklist_checked_at < cutoff`
AND `national_checked_at < cutoff`; return the remaining table and the
number of deleted rows (`data.length` of the returned ids). -/
def deleteOldEntries (t : DncTable) (now : Int) (olderThanDays : Int) : DncTable × Nat :=
  let cutoff := now - olderThanDays * 24 * 60 * 60 * 1000
  (t.filter (fun r => !(staleForDelete cutoff r)),
   (t.filter (staleForDelete cutoff)).length)

/-! ## List checkers (`dnc-checker.ts`) -/

/-- Outcome of one `fetch` as the checker code observes it: either the
promise rejected (network failure), or a response arrived with an `ok`
flag, a status code, and a body whose JSON parse may itself fail. -/
inductive FetchResult (α : Type) where
  | success (ok : Bool) (status : Nat) (body : Except String α)
  | failure (err : String)
deriving Repr

/-- The outcomes the code treats as failures: transport failure, a non-ok
HTTP response, or a body that fails to parse. -/
def FetchResult.failed : FetchResult α → Bool
  | .failure _ => true
  | .success ok _ body =>
    !ok || (match body with | .error _ => true | .ok _ => false)

/-- Parsed body of the company-blacklist endpoint; the flag field may be
absent (`data?.isOnCompanyBlacklist`). -/
structure BlacklistBody where
  isOnCompanyBlacklist : Option Bool := none
deriving Repr, DecidableEq

/-- Nested `contactStatus` of the national endpoint. -/
structure ContactStatus where
  canContact : Option Bool := none
  reason : Option String := none
  expiryDateUTC : Option String := none
deriving Repr, DecidableEq

/-- Parsed body of the national-DNC endpoint; `contactStatus` may be
absent. -/
structure NationalBody where
  contactStatus : Option ContactStatus := none
deriving Repr, DecidableEq

structure BlacklistCheckOutcome where
  isOnList : Bool
  error : Option String := none
deriving Repr, DecidableEq

structure NationalCheckOutcome where
  isOnList : Bool
  reason : Option String := none
  expiry : Option String := none
  error : Option String := none
deriving Repr, DecidableEq

/-- `checkCompanyBlacklistAPI`: non-ok response or any thrown error (caught
by the surrounding try/catch) degrades to `isOnList: false` with `error`
populated; otherwise `isOnList` is `data?.isOnCompanyBlacklist === true`. -/
def checkCompanyBlacklistAPI (f : FetchResult BlacklistBody) : BlacklistCheckOutcome :=
  match f with
  | .failure e => { isOnList := false, error := some e }
  | .success ok status body =>
    if !ok then
      { isOnList := false, error := some ("API returned " ++ toString status) }
    else
      match body with
      | .error e => { isOnList := false, error := some e }
      | .ok data => { isOnList := data.isOnCompanyBlacklist == some true }

/-- `checkNationalDNCAPI`: same failure handling; on success `isOnList` is
`contactStatus?.canContact === false`, with `reason || undefined` and
`expiryDateUTC || undefined` passed through. -/
def checkNationalDNCAPI (f : FetchResult NationalBody) : NationalCheckOutcome :=
  match f with
  | .failure e => { isOnList := false, error := some e }
  | .success ok status body =>
    if !ok then
      { isOnList := false, error := some ("API returned " ++ toString status) }
    else
      match body with
      | .error e => { isOnList := false, error := some e }
      | .ok data =>
        { isOnList := (data.contactStatus.bind (·.canContact)) == some false
          reason := jsStrOr (data.contactStatus.bind (·.reason))
          expiry := jsStrOr (data.contactStatus.bind (·.expiryDateUTC)) }

/-! ## Freshness and the orchestrator (`checkDnc`) -/

/-- `isFresh(checkedAt, ttlHours)` evaluated at clock value `now`: false on
a NULL timestamp, otherwise `now - checkedAt < ttlHours * 60 * 60 * 1000`. -/
def isFresh (checkedAt : Option Int) (ttlHours : Int) (now : Int) : Bool :=
  match checkedAt with
  | none => false
  | some t => now - t < ttlHours * 60 * 60 * 1000

/-- Freshness of the blacklist slot of an optional cache entry, exactly as
computed at step 2 of `checkDnc` (`cached ? isFresh(...) : false`). -/
def blacklistFreshOf (cached : Option DncRow) (ttlHours now : Int) : Bool :=
  match cached with
  | some c => isFresh c.blacklist_checked_at ttlHours now
  | none => false

/-- Freshness of the national slot of an optional cache entry. -/
def nationalFreshOf (cached : Option DncRow) (ttlHours now : Int) : Bool :=
  match cached with
  | some c => isFresh c.national_checked_at ttlHours now
  | none => false

/-- The `DncCheckResult` returned by `checkDnc`. -/
structure DncCheckResult where
  isBlacklist : Bool
  isNationalDnc : Bool
  nationalDncReason : Option String := none
  nationalDncExpiry : Option String := none
  blacklistFromCache : Bool
  nationalFromCache : Bool
deriving Repr, DecidableEq

/-- Side effects of one `checkDnc` run: which remote checkers were invoked
and which cache writes were issued (with the written arguments). -/
structure DncEffects where
  blacklistCalled : Bool
  nationalCalled : Bool
  blacklistWrite : Option Bool := none
  nationalWrite : Option (Bool × Option String × Option String) := none
deriving Repr, DecidableEq

/-- The structured `dnc_check` log record (cache-status string and the two
provenance booleans and two result flags). -/
structure LogRecord where
  cache_status : String
  blacklist_cached : Bool
  national_cached : Bool
  is_blacklist : Bool
  is_national_dnc : Bool
deriving Repr, DecidableEq

structure DncCheckOut where
  result : DncCheckResult
  effects : DncEffects
  log : LogRecord
deriving Repr, DecidableEq

/-- `checkDnc(phone)` as a function of the clock, the two TTLs, the cache
row returned by `dncCache.get`, and the two remote outcomes.  Mirrors the
source step by step: freshness per list; verdict initialised from the
cached values; a checker invoked (and its cache write issued) exactly for
each stale list, overwriting that list's verdict fields; provenance
booleans are the step-2 freshness booleans; the log classifies
hit/partial/miss from the same booleans. -/
def checkDnc (cached : Option DncRow) (bTTL nTTL : Int) (now : Int)
    (bFetch : FetchResult BlacklistBody) (nFetch : FetchResult NationalBody) : DncCheckOut :=
  let blacklistFresh := blacklistFreshOf cached bTTL now
  let nationalFresh := nationalFreshOf cached nTTL now
  let isBlacklist0 := match cached with | some c => c.is_company_blacklist | none => false
  let isNationalDnc0 := match cached with | some c => c.is_national_dnc | none => false
  let reason0 := jsStrOr (cached.bind (·.national_dnc_reason))
  let expiry0 := jsStrOr (cached.bind (·.national_dnc_expiry))
  let bOut := if blacklistFresh then none else some (checkCompanyBlacklistAPI bFetch)
  let nOut := if nationalFresh then none else some (checkNationalDNCAPI nFetch)
  let isBlacklist := match bOut with | some r => r.isOnList | none => isBlacklist0
  let isNationalDnc := match nOut with | some r => r.isOnList | none => isNationalDnc0
  let reason := match nOut with | some r => r.reason | none => reason0
  let expiry := match nOut with | some r => r.expiry | none => expiry0
  let cacheStatus :=
    if blacklistFresh && nationalFresh then "hit"
    else if blacklistFresh || nationalFresh then "partial"
    else "miss"
  { result :=
      { isBlacklist := isBlacklist
        isNationalDnc := isNationalDnc
        nationalDncReason := jsStrOr reason
        nationalDncExpiry := jsStrOr expiry
        blacklistFromCache := blacklistFresh
        nationalFromCache := nationalFresh }
    effects :=
      { blacklistCalled := !blacklistFresh
        nationalCalled := !nationalFresh
        blacklistWrite := bOut.map (·.isOnList)
        nationalWrite := nOut.map (fun r => (r.isOnList, r.reason, r.expiry)) }
    log :=
      { cache_status := cacheStatus
        blacklist_cached := blacklistFresh
        national_cached := nationalFresh
        is_blacklist := isBlacklist
        is_national_dnc := isNationalDnc } }

/-! ## Contact flagging (webhook handler, `src/pages/api/webhooks/ghl.ts`) -/

def DNC_TAG_USHEALTH : String := "DNC-USHEALTH"
def DNC_TAG_NATIONAL : String := "DNC-NATIONAL"

/-- One step of building a JavaScript `Set` by insertion order: keep the
first occurrence, drop later duplicates. -/
def insertUnique (acc : List String) (x : String) : List String :=
  if x ∈ acc then acc else acc ++ [x]

/-- `[...new Set(l)]`: deduplicate preserving first-occurrence order. -/
def jsSetOf (l : List String) : List String :=
  l.foldl insertUnique []

/-- The tag list the handler builds from a verdict: `DNC-USHEALTH` when the
blacklist flag is set, `DNC-NATIONAL` when the national flag is set. -/
def computeDncTags (isBlacklist isNationalDnc : Bool) : List String :=
  (if isBlacklist then [DNC_TAG_USHEALTH] else []) ++
    (if isNationalDnc then [DNC_TAG_NATIONAL] else [])

/-- The body of the PUT request `updateContactDNC` sends to the CRM. -/
structure ContactUpdatePayload where
  dnd : Bool
  smsStatus : String
  smsMessage : String
  callStatus : String
  callMessage : String
  tags : List String
deriving Repr, DecidableEq

/-- `updateContactDNC(ghlApi, contactId, newTags)`: `existingRead` is the
outcome of `getExistingTags` (`none` models its catch/non-ok branches,
which return `[]`); the written tag list is
`[...new Set([...existingTags, ...newTags])]`, DND is set on SMS and Call
with the fixed message; the returned boolean is the write's success. -/
def updateContactDNC (existingRead : Option (List String)) (newTags : List String)
    (writeOk : Bool) : ContactUpdatePayload × Bool :=
  let existingTags := existingRead.getD []
  let mergedTags := jsSetOf (existingTags ++ newTags)
  ({ dnd := true
     smsStatus := "active"
     smsMessage := "DNC - Do Not Contact"
     callStatus := "active"
     callMessage := "DNC - Do Not Contact"
     tags := mergedTags }, writeOk)

/-- What the handler reads from the fetched contact
(`contactData.contact?.phone`, `contactData.contact?.tags || []`). -/
structure ContactRead where
  phone : Option String := none
  tags : Option (List String) := none
deriving Repr

/-- The environment one webhook invocation runs in: the request fields and
the outcome of every external interaction the handler can perform, passed
in as data. -/
structure HandlerEnv where
  method : String
  eventType : String
  locationId : Option String
  contactId : Option String
  installationFound : Bool
  accessToken : Option String
  contactFetch : Option ContactRead
  cached : Option DncRow
  bTTL : Int
  nTTL : Int
  now : Int
  bFetch : FetchResult BlacklistBody
  nFetch : FetchResult NationalBody
  existingTagsRead : Option (List String)
  updateOk : Bool

/-- The handler's HTTP response, reduced to its discriminating content. -/
inductive HandlerResponse where
  | methodNotAllowed
  | ignoredType
  | badRequest
  | skippedNoInstallation
  | skippedNoToken
  | skippedContactFetchFailed
  | skippedNoPhone
  | skippedAlreadyTagged (tags : List String)
  | flagged (tags : List String) (updated : Bool) (fromCacheB fromCacheN : Bool)
  | clean (fromCacheB fromCacheN : Bool)
deriving Repr, DecidableEq

/-- Observable outcome of one handler run.  `dnc = none` means `checkDnc`
was never invoked — `checkDnc` is the only site that reads the DNC cache
or calls a remote list, so `dnc = none` is precisely "no cache read, no
remote call".  `contactWrite` records the CRM update, if any; `logs` the
structured `dnc_check` records emitted. -/
structure HandlerOut where
  response : HandlerResponse
  dnc : Option DncCheckOut := none
  contactWrite : Option ContactUpdatePayload := none
  logs : List LogRecord := []
deriving Repr

/-- The log record the handler emits on the already-tagged short-circuit
(`cache_status: 'skipped_tagged'`, both cached booleans false, both result
flags true). -/
def skippedTaggedLog : LogRecord :=
  { cache_status := "skipped_tagged"
    blacklist_cached := false
    national_cached := false
    is_blacklist := true
    is_national_dnc := true }

/-- The webhook `handler`, step by step as in the source: method gate,
event-type gate, required-field gate, installation lookup, token
resolution, contact fetch, missing-phone gate, already-tagged
short-circuit, `checkDnc`, and — only when some list flagged — the
contact update with the merged tags. -/
def handler (env : HandlerEnv) : HandlerOut :=
  if env.method ≠ "POST" then
    { response := .methodNotAllowed }
  else if env.eventType ≠ "OutboundMessage" then
    { response := .ignoredType }
  else if !jsStrTruthy env.locationId || !jsStrTruthy env.contactId then
    { response := .badRequest }
  else if !env.installationFound then
    { response := .skippedNoInstallation }
  else if !jsStrTruthy env.accessToken then
    { response := .skippedNoToken }
  else
    match env.contactFetch with
    | none => { response := .skippedContactFetchFailed }
    | some contact =>
      let existingTags := contact.tags.getD []
      if !jsStrTruthy contact.phone then
        { response := .skippedNoPhone }
      else if existingTags.contains DNC_TAG_USHEALTH
          && existingTags.contains DNC_TAG_NATIONAL then
        { response := .skippedAlreadyTagged [DNC_TAG_USHEALTH, DNC_TAG_NATIONAL]
          logs := [skippedTaggedLog] }
      else
        let out := checkDnc env.cached env.bTTL env.nTTL env.now env.bFetch env.nFetch
        if out.result.isBlacklist || out.result.isNationalDnc then
          let tags := computeDncTags out.result.isBlacklist out.result.isNationalDnc
          let upd := updateContactDNC env.existingTagsRead tags env.updateOk
          { response := .flagged tags upd.2 out.result.blacklistFromCache
              out.result.nationalFromCache
            dnc := some out
            contactWrite := some upd.1
            logs := [out.log] }
        else
          { response := .clean out.result.blacklistFromCache out.result.nationalFromCache
            dnc := some out
            logs := [out.log] }

/-! ## Helper lemmas about `jsSetOf` -/

theorem mem_insertUnique (acc : List String) (a x : String) :
    x ∈ insertUnique acc a ↔ x ∈ acc ∨ x = a := by
  unfold insertUnique
  by_cases h : a ∈ acc
  · simp only [if_pos h]
    constructor
    · exact Or.inl
    · rintro (hx | rfl)
      · exact hx
      · exact h
  · simp [if_neg h]

theorem nodup_insertUnique (acc : List String) (a : String) (h : acc.Nodup) :
    (insertUnique acc a).Nodup := by
  unfold insertUnique
  by_cases ha : a ∈ acc
  · simpa [if_pos ha] using h
  · simp only [if_neg ha]
    simp [List.nodup_append, h, ha]

theorem mem_foldl_insertUnique (l : List String) :
    ∀ (acc : List String) (x : String),
      x ∈ l.foldl insertUnique acc ↔ x ∈ acc ∨ x ∈ l := by
  induction l with
  | nil => intro acc x; simp
  | cons a l ih =>
    intro acc x
    rw [List.foldl_cons, ih, mem_insertUnique]
    simp [or_assoc]

theorem nodup_foldl_insertUnique (l : List String) :
    ∀ acc : List String, acc.Nodup → (l.foldl insertUnique acc).Nodup := by
  induction l with
  | nil => intro acc h; simpa using h
  | cons a l ih => intro acc h; exact ih _ (nodup_insertUnique acc a h)

theorem foldl_insertUnique_of_subset (l : List String) :
    ∀ acc : List String, (∀ x ∈ l, x ∈ acc) → l.foldl insertUnique acc = acc := by
  induction l with
  | nil => intro acc _; rfl
  | cons a l ih =>
    intro acc h
    have ha : a ∈ acc := h a (List.mem_cons_self a l)
    rw [List.foldl_cons]
    have hins : insertUnique acc a = acc := by unfold insertUnique; simp [if_pos ha]
    rw [hins]
    exact ih acc (fun x hx => h x (List.mem_cons_of_mem a hx))

theorem foldl_insertUnique_disjoint (l : List String) :
    ∀ acc : List String, l.Nodup → (∀ x ∈ l, x ∉ acc) →
      l.foldl insertUnique acc = acc ++ l := by
  induction l with
  | nil => intro acc _ _; simp
  | cons a l ih =>
    intro acc hnd hdisj
    rw [List.foldl_cons]
    have ha : a ∉ acc := hdisj a (List.mem_cons_self a l)
    have hins : insertUnique acc a = acc ++ [a] := by unfold insertUnique; simp [if_neg ha]
    rw [hins, ih (acc ++ [a]) hnd.of_cons]
    · simp
    · intro x hx
      have h1 : x ∉ acc := hdisj x (List.mem_cons_of_mem a hx)
      have h2 : x ≠ a := by
        intro heq
        exact (List.nodup_cons.mp hnd).1 (heq ▸ hx)
      simp [List.mem_append, h1, h2]

theorem mem_jsSetOf (l : List String) (x : String) : x ∈ jsSetOf l ↔ x ∈ l := by
  unfold jsSetOf
  rw [mem_foldl_insertUnique]
  simp

theorem nodup_jsSetOf (l : List String) : (jsSetOf l).Nodup :=
  nodup_foldl_insertUnique l [] List.nodup_nil

theorem jsSetOf_of_nodup (l : List String) (h : l.Nodup) : jsSetOf l = l := by
  unfold jsSetOf
  simpa using foldl_insertUnique_disjoint l [] h (by simp)

theorem jsSetOf_idem (l : List String) : jsSetOf (jsSetOf l) = jsSetOf l :=
  jsSetOf_of_nodup _ (nodup_jsSetOf l)

theorem jsSetOf_append_absorb (m n : List String) (h : ∀ x ∈ n, x ∈ jsSetOf m) :
    jsSetOf (m ++ n) = jsSetOf m := by
  unfold jsSetOf at *
  rw [List.foldl_append]
  exact foldl_insertUnique_of_subset n _ h

/-! ## Helper lemmas about the cache table -/

/-- The UNIQUE constraint on the `phone` column: no two rows share a phone. -/
def phoneUnique (t : DncTable) : Prop :=
  t.Pairwise (fun a b => a.phone ≠ b.phone)

theorem applyPatch_phone (r : DncRow) (p : DncPatch) : (applyPatch r p).phone = r.phone := rfl

theorem filter_phone_of_unique (t : DncTable) (p : String) (h : phoneUnique t)
    (ha : t.any (fun r => r.phone == p) = true) :
    ∃ r₀, t.filter (fun r => r.phone == p) = [r₀] ∧ r₀ ∈ t ∧ r₀.phone = p := by
  induction t with
  | nil => simp at ha
  | cons r rest ih =>
    have hpw := List.pairwise_cons.mp h
    by_cases hp : (r.phone == p) = true
    · have hpe : r.phone = p := by simpa using hp
      refine ⟨r, ?_, List.mem_cons_self r rest, hpe⟩
      have hnil : rest.filter (fun r' => r'.phone == p) = [] := by
        rw [List.filter_eq_nil_iff]
        intro r' hr'
        have hne : r'.phone ≠ p := by
          intro he
          exact hpw.1 r' hr' (hpe.trans he.symm)
        simp [hne]
      rw [List.filter_cons, if_pos hp, hnil]
    · have ha' : rest.any (fun r' => r'.phone == p) = true := by
        rcases List.any_eq_true.mp ha with ⟨x, hx, hxp⟩
        rcases List.mem_cons.mp hx with rfl | hx'
        · exact absurd hxp hp
        · exact List.any_eq_true.mpr ⟨x, hx', hxp⟩
      obtain ⟨r₀, hfil, hmem, hph⟩ := ih hpw.2 ha'
      exact ⟨r₀, by rw [List.filter_cons, if_neg hp]; exact hfil,
        List.mem_cons_of_mem r hmem, hph⟩

theorem dncCacheGet_upsert (t : DncTable) (p : String) (patch : DncPatch) (now : Int)
    (h : phoneUnique t) :
    (∃ r₀, r₀ ∈ t ∧ r₀.phone = p ∧
      dncCacheGet (upsertDnc t p patch now) p = some (applyPatch r₀ patch)) ∨
    ((∀ r ∈ t, r.phone ≠ p) ∧
      dncCacheGet (upsertDnc t p patch now) p = some (newRowFromPatch p patch now)) := by
  unfold upsertDnc
  by_cases hany : t.any (fun r => r.phone == p) = true
  · left
    obtain ⟨r₀, hfil, hmem, hph⟩ := filter_phone_of_unique t p h hany
    refine ⟨r₀, hmem, hph, ?_⟩
    rw [if_pos hany]
    unfold dncCacheGet
    have hcomp : (fun r => r.phone == p) ∘
        (fun r => if (r.phone == p) = true then applyPatch r patch else r) =
        (fun r => r.phone == p) := by
      funext r
      by_cases hr : r.phone = p
      · simp [hr, applyPatch_phone]
      · simp [hr, applyPatch_phone]
    rw [List.filter_map, hcomp, hfil]
    simp [hph]
  · right
    have hall : ∀ r ∈ t, r.phone ≠ p := by
      intro r hr he
      exact hany (List.any_eq_true.mpr ⟨r, hr, by simp [he]⟩)
    refine ⟨hall, ?_⟩
    rw [if_neg hany]
    unfold dncCacheGet
    have hnil : t.filter (fun r => r.phone == p) = [] := by
      rw [List.filter_eq_nil_iff]
      intro r hr
      simp [hall r hr]
    rw [List.filter_append, hnil]
    simp [newRowFromPatch]

theorem dncCacheGet_updateBlacklist (t : DncTable) (p : String) (isOn : Bool) (now : Int)
    (h : phoneUnique t) :
    ∃ r', dncCacheGet (updateBlacklist t p isOn now) p = some r' ∧
      r'.is_company_blacklist = isOn ∧ r'.blacklist_checked_at = some now := by
  rcases dncCacheGet_upsert t p
      { is_company_blacklist := some isOn, blacklist_checked_at := some now } now h with
    ⟨r₀, _, _, hget⟩ | ⟨_, hget⟩
  · exact ⟨_, hget, rfl, rfl⟩
  · exact ⟨_, hget, rfl, rfl⟩

theorem dncCacheGet_updateNational (t : DncTable) (p : String) (isOn : Bool)
    (reason expiry : Option String) (now : Int) (h : phoneUnique t) :
    ∃ r', dncCacheGet (updateNational t p isOn reason expiry now) p = some r' ∧
      r'.is_national_dnc = isOn ∧ r'.national_checked_at = some now := by
  rcases dncCacheGet_upsert t p
      { is_national_dnc := some isOn, national_dnc_reason := some (jsStrOr reason),
        national_dnc_expiry := some (jsStrOr expiry), national_checked_at := some now } now h with
    ⟨r₀, _, _, hget⟩ | ⟨_, hget⟩
  · exact ⟨_, hget, rfl, rfl⟩
  · exact ⟨_, hget, rfl, rfl⟩

/-! ## Rows and environments used by concrete witnesses -/

/-- A cache row whose blacklist timestamp is NULL while its national
timestamp and its own creation are 40 days in the past (clock value
`3456000000` = 40 days in ms, timestamps at `0`). -/
def nullTimestampRow : DncRow :=
  { phone := "5551234567", blacklist_checked_at := none,
    national_checked_at := some 0, created_at := 0 }

/-- A cache row whose blacklist slot was checked 1 hour ago and whose
national slot 20 hours ago, relative to clock value `360000000` (100 h). -/
def splitFreshnessRow : DncRow :=
  { phone := "5551234567", blacklist_checked_at := some 356400000,
    national_checked_at := some 288000000 }

/-- A cache row fresh on both slots relative to clock value `360000000`,
carrying a positive blacklist flag. -/
def bothFreshRow : DncRow :=
  { phone := "5551234567", is_company_blacklist := true,
    blacklist_checked_at := some 359000000, national_checked_at := some 359000000 }

/-- Expected shape of an existing row after `updateBlacklist`: the two
blacklist columns overwritten, every national column untouched. -/
def blacklistPatched (r : DncRow) (isOn : Bool) (now : Int) : DncRow :=
  { r with
    is_company_blacklist := isOn,
    blacklist_checked_at := some now }

/-- Row inserted by `updateBlacklist` when the phone has no row: national
columns at their migration defaults. -/
def blacklistInserted (p : String) (isOn : Bool) (now : Int) : DncRow :=
  { phone := p, is_company_blacklist := isOn, blacklist_checked_at := some now,
    created_at := now }

/-- Expected shape of an existing row after `updateNational`: the national
columns overwritten, the blacklist columns untouched. -/
def nationalPatched (r : DncRow) (isOn : Bool) (reason expiry : Option String)
    (now : Int) : DncRow :=
  { r with
    is_national_dnc := isOn,
    national_dnc_reason := jsStrOr reason,
    national_dnc_expiry := jsStrOr expiry,
    national_checked_at := some now }

/-- Row inserted by `updateNational` when the phone has no row: blacklist
columns at their migration defaults. -/
def nationalInserted (p : String) (isOn : Bool) (reason expiry : Option String)
    (now : Int) : DncRow :=
  { phone := p, is_national_dnc := isOn, national_dnc_reason := jsStrOr reason,
    national_dnc_expiry := jsStrOr expiry, national_checked_at := some now,
    created_at := now }

/-- A fetched contact already carrying both DNC tags. -/
def alreadyTaggedContact : ContactRead :=
  { phone := some "5551234567",
    tags := some ["DNC-USHEALTH", "DNC-NATIONAL", "vip"] }

/-- A webhook environment that reaches the already-tagged short-circuit. -/
def alreadyTaggedEnv : HandlerEnv :=
  { method := "POST", eventType := "OutboundMessage", locationId := some "loc1",
    contactId := some "contact1", installationFound := true,
    accessToken := some "token", contactFetch := some alreadyTaggedContact,
    cached := none, bTTL := 12, nTTL := 12, now := 0,
    bFetch := .failure "unused", nFetch := .failure "unused",
    existingTagsRead := none, updateOk := true }

/-! ## Claim theorems -/

/-- Claim C7: the Freshness Evaluator is TTL-correct.  `isFresh(null, ttl)`
is `false` for every ttl, and for every `checkedAt ≤ now`,
`isFresh(checkedAt, ttl)` is exactly `(now - checkedAt) < ttl` (the TTL
expressed in hours and converted to milliseconds, as in the source).
Purity is captured by the embedding: `isFresh` is a function of its
arguments and the clock value alone, with no effect component. -/
theorem isFresh_ttl_correct :
    (∀ (ttl now : Int), isFresh none ttl now = false) ∧
    (∀ (t ttl now : Int), t ≤ now →
      isFresh (some t) ttl now = decide (now - t < ttl * 60 * 60 * 1000)) := by
  constructor
  · intro ttl now; rfl
  · intro t ttl now _; rfl

/-- Witness for C7 at `checkedAt = 0`, `ttl = 12`, `now = 3600000`. -/
theorem isFresh_ttl_correct_witness :
    isFresh none 12 0 = false ∧
    ((0 : Int) ≤ 3600000 ∧
      isFresh (some 0) 12 3600000 = decide ((3600000 : Int) - 0 < 12 * 60 * 60 * 1000)) :=
  ⟨isFresh_ttl_correct.1 12 0,
   by decide, isFresh_ttl_correct.2 0 12 3600000 (by decide)⟩

/-- Counterexample to claim C1 as stated: a row whose `blacklist_checked_at`
is NULL while the row itself (creation and its other timestamp) is 40 days
old is, per the claim, deleted by `deleteStale(30 days)`; the code's two
chained SQL `.lt` filters never match a NULL column, so `deleteOldEntries`
retains the row and reports 0 deletions. -/
theorem deleteOldEntries_null_row_retained :
    deleteOldEntries [nullTimestampRow] 3456000000 30 = ([nullTimestampRow], 0) := by
  decide

/-- Claim C1 as amended: `deleteOldEntries` deletes exactly the rows on
which both SQL comparisons `blacklist_checked_at < cutoff` and
`national_checked_at < cutoff` hold — which requires both timestamps to
be non-NULL — and returns the count of deleted rows; a row with either
timestamp NULL is never deleted, regardless of the row's own age, and a
row with one timestamp older than the window and the other within it is
not deleted (its `staleForDelete` is `false`). -/
theorem deleteOldEntries_exact_characterization (t : DncTable) (now olderThanDays : Int)
    (r : DncRow) :
    ((deleteOldEntries t now olderThanDays).2 =
      (t.filter (staleForDelete (now - olderThanDays * 24 * 60 * 60 * 1000))).length) ∧
    (r ∈ (deleteOldEntries t now olderThanDays).1 ↔
      r ∈ t ∧ staleForDelete (now - olderThanDays * 24 * 60 * 60 * 1000) r = false) ∧
    (r ∈ t → (r.blacklist_checked_at = none ∨ r.national_checked_at = none) →
      r ∈ (deleteOldEntries t now olderThanDays).1) := by
  refine ⟨rfl, ?_, ?_⟩
  · unfold deleteOldEntries
    simp [List.mem_filter]
  · intro hmem hnull
    unfold deleteOldEntries
    simp only [List.mem_filter]
    refine ⟨hmem, ?_⟩
    rcases hnull with h | h <;>
      simp [staleForDelete, sqlLt, h]

/-- Witness for the amended C1: the NULL-timestamp row of the
counterexample is indeed retained by the sweep. -/
theorem deleteOldEntries_exact_characterization_witness :
    nullTimestampRow ∈ (deleteOldEntries [nullTimestampRow] 3456000000 30).1 :=
  (deleteOldEntries_exact_characterization [nullTimestampRow] 3456000000 30
    nullTimestampRow).2.2 (by decide) (Or.inl rfl)

/-- Claim C2: with a cache row whose blacklist slot is fresh and whose
national slot is stale, `checkDnc` invokes exactly the national checker
(the blacklist checker is not called) and the verdict reports
`blacklistFromCache = true`, `nationalFromCache = false`; in general the
two `fromCache` booleans of every verdict equal the per-list freshness
booleans computed from the cache entry at the start of the call. -/
theorem checkDnc_independent_list_refresh (cached : Option DncRow) (bTTL nTTL now : Int)
    (bF : FetchResult BlacklistBody) (nF : FetchResult NationalBody)
    (hb : blacklistFreshOf cached bTTL now = true)
    (hn : nationalFreshOf cached nTTL now = false) :
    (checkDnc cached bTTL nTTL now bF nF).effects.blacklistCalled = false ∧
    (checkDnc cached bTTL nTTL now bF nF).effects.nationalCalled = true ∧
    (checkDnc cached bTTL nTTL now bF nF).result.blacklistFromCache = true ∧
    (checkDnc cached bTTL nTTL now bF nF).result.nationalFromCache = false ∧
    (∀ (c' : Option DncRow) (b' n' t' : Int) (bF' : FetchResult BlacklistBody)
        (nF' : FetchResult NationalBody),
      (checkDnc c' b' n' t' bF' nF').result.blacklistFromCache = blacklistFreshOf c' b' t' ∧
      (checkDnc c' b' n' t' bF' nF').result.nationalFromCache = nationalFreshOf c' n' t') := by
  refine ⟨?_, ?_, ?_, ?_, ?_⟩
  · simp [checkDnc, hb]
  · simp [checkDnc, hn]
  · simp [checkDnc, hb]
  · simp [checkDnc, hn]
  · intro c' b' n' t' bF' nF'
    exact ⟨rfl, rfl⟩

/-- Witness for C2: blacklist checked 1 h ago, national 20 h ago, both TTLs
12 h, at clock value 360000000. -/
theorem checkDnc_independent_list_refresh_witness :
    (checkDnc (some splitFreshnessRow) 12 12 360000000 (.failure "down")
      (.failure "down")).effects.blacklistCalled = false ∧
    (checkDnc (some splitFreshnessRow) 12 12 360000000 (.failure "down")
      (.failure "down")).effects.nationalCalled = true ∧
    (checkDnc (some splitFreshnessRow) 12 12 360000000 (.failure "down")
      (.failure "down")).result.blacklistFromCache = true ∧
    (checkDnc (some splitFreshnessRow) 12 12 360000000 (.failure "down")
      (.failure "down")).result.nationalFromCache = false := by
  have h := checkDnc_independent_list_refresh (some splitFreshnessRow) 12 12 360000000
    (.failure "down") (.failure "down") (by decide) (by decide)
  exact ⟨h.1, h.2.1, h.2.2.1, h.2.2.2.1⟩

/-- Claim C3: a list whose cached timestamp is fresh at the start of a
`checkDnc` call gets no remote call and no cache write, and its verdict
fields are the cached values (the reason/expiry strings modulo the
JavaScript `|| undefined` normalisation, which only affects the
empty-string corner the store itself never writes); when both lists are
fresh there are zero remote calls and zero cache writes. -/
theorem checkDnc_fresh_list_untouched :
    (∀ (c : DncRow) (bTTL nTTL now : Int) (bF : FetchResult BlacklistBody)
        (nF : FetchResult NationalBody),
      isFresh c.blacklist_checked_at bTTL now = true →
        (checkDnc (some c) bTTL nTTL now bF nF).effects.blacklistCalled = false ∧
        (checkDnc (some c) bTTL nTTL now bF nF).effects.blacklistWrite = none ∧
        (checkDnc (some c) bTTL nTTL now bF nF).result.isBlacklist = c.is_company_blacklist) ∧
    (∀ (c : DncRow) (bTTL nTTL now : Int) (bF : FetchResult BlacklistBody)
        (nF : FetchResult NationalBody),
      isFresh c.national_checked_at nTTL now = true →
        (checkDnc (some c) bTTL nTTL now bF nF).effects.nationalCalled = false ∧
        (checkDnc (some c) bTTL nTTL now bF nF).effects.nationalWrite = none ∧
        (checkDnc (some c) bTTL nTTL now bF nF).result.isNationalDnc = c.is_national_dnc ∧
        (c.national_dnc_reason ≠ some "" →
          (checkDnc (some c) bTTL nTTL now bF nF).result.nationalDncReason =
            c.national_dnc_reason) ∧
        (c.national_dnc_expiry ≠ some "" →
          (checkDnc (some c) bTTL nTTL now bF nF).result.nationalDncExpiry =
            c.national_dnc_expiry)) ∧
    (∀ (c : DncRow) (bTTL nTTL now : Int) (bF : FetchResult BlacklistBody)
        (nF : FetchResult NationalBody),
      isFresh c.blacklist_checked_at bTTL now = true →
      isFresh c.national_checked_at nTTL now = true →
        (checkDnc (some c) bTTL nTTL now bF nF).effects =
          { blacklistCalled := false, nationalCalled := false,
            blacklistWrite := none, nationalWrite := none }) := by
  refine ⟨?_, ?_, ?_⟩
  · intro c bTTL nTTL now bF nF hb
    refine ⟨?_, ?_, ?_⟩ <;> simp [checkDnc, blacklistFreshOf, hb]
  · intro c bTTL nTTL now bF nF hn
    refine ⟨?_, ?_, ?_, ?_, ?_⟩
    · simp [checkDnc, nationalFreshOf, hn]
    · simp [checkDnc, nationalFreshOf, hn]
    · simp [checkDnc, nationalFreshOf, hn]
    · intro hne
      simp [checkDnc, nationalFreshOf, hn]
      cases hrc : c.national_dnc_reason with
      | none => simp [jsStrOr]
      | some s =>
        have hs : s ≠ "" := by intro he; exact hne (by rw [hrc, he])
        simp [jsStrOr, hs]
    · intro hne
      simp [checkDnc, nationalFreshOf, hn]
      cases hrc : c.national_dnc_expiry with
      | none => simp [jsStrOr]
      | some s =>
        have hs : s ≠ "" := by intro he; exact hne (by rw [hrc, he])
        simp [jsStrOr, hs]
  · intro c bTTL nTTL now bF nF hb hn
    simp [checkDnc, blacklistFreshOf, nationalFreshOf, hb, hn]

/-- Witness for C3: a row fresh on both slots at clock value 360000000 under
12 h TTLs produces no calls and no writes and reports the cached
blacklist flag. -/
theorem checkDnc_fresh_list_untouched_witness :
    (checkDnc (some bothFreshRow) 12 12 360000000 (.failure "down")
      (.failure "down")).effects =
      { blacklistCalled := false, nationalCalled := false,
        blacklistWrite := none, nationalWrite := none } ∧
    (checkDnc (some bothFreshRow) 12 12 360000000 (.failure "down")
      (.failure "down")).result.isBlacklist = bothFreshRow.is_company_blacklist :=
  ⟨checkDnc_fresh_list_untouched.2.2 bothFreshRow 12 12 360000000 (.failure "down")
      (.failure "down") (by decide) (by decide),
   (checkDnc_fresh_list_untouched.1 bothFreshRow 12 12 360000000 (.failure "down")
      (.failure "down") (by decide)).2.2⟩

/-- Claim C4: the checkers and the orchestrator never propagate a failure.
Any non-success HTTP response, transport failure or body-parse failure in
a list checker yields `isOnList = false` with the `error` field
populated, and when that list was stale the verdict flag for it is
`false`.  In the embedding both checkers and `checkDnc` are total
functions of the fetch outcomes — every outcome, including every failure,
produces a `DncCheckResult`, so no exception reaches the caller. -/
theorem checkers_fail_open :
    (∀ (f : FetchResult BlacklistBody), f.failed = true →
      (checkCompanyBlacklistAPI f).isOnList = false ∧
      (checkCompanyBlacklistAPI f).error.isSome = true) ∧
    (∀ (f : FetchResult NationalBody), f.failed = true →
      (checkNationalDNCAPI f).isOnList = false ∧
      (checkNationalDNCAPI f).error.isSome = true) ∧
    (∀ (cached : Option DncRow) (bTTL nTTL now : Int) (bF : FetchResult BlacklistBody)
        (nF : FetchResult NationalBody),
      blacklistFreshOf cached bTTL now = false → bF.failed = true →
        (checkDnc cached bTTL nTTL now bF nF).result.isBlacklist = false) ∧
    (∀ (cached : Option DncRow) (bTTL nTTL now : Int) (bF : FetchResult BlacklistBody)
        (nF : FetchResult NationalBody),
      nationalFreshOf cached nTTL now = false → nF.failed = true →
        (checkDnc cached bTTL nTTL now bF nF).result.isNationalDnc = false) := by
  have hbl : ∀ (f : FetchResult BlacklistBody), f.failed = true →
      (checkCompanyBlacklistAPI f).isOnList = false ∧
      (checkCompanyBlacklistAPI f).error.isSome = true := by
    intro f hf
    cases f with
    | failure e => simp [checkCompanyBlacklistAPI]
    | success ok status body =>
      cases ok with
      | false => simp [checkCompanyBlacklistAPI]
      | true =>
        cases body with
        | error e => simp [checkCompanyBlacklistAPI]
        | ok data => simp [FetchResult.failed] at hf
  have hna : ∀ (f : FetchResult NationalBody), f.failed = true →
      (checkNationalDNCAPI f).isOnList = false ∧
      (checkNationalDNCAPI f).error.isSome = true := by
    intro f hf
    cases f with
    | failure e => simp [checkNationalDNCAPI]
    | success ok status body =>
      cases ok with
      | false => simp [checkNationalDNCAPI]
      | true =>
        cases body with
        | error e => simp [checkNationalDNCAPI]
        | ok data => simp [FetchResult.failed] at hf
  refine ⟨hbl, hna, ?_, ?_⟩
  · intro cached bTTL nTTL now bF nF hb hf
    have h := (hbl bF hf).1
    simp [checkDnc, hb, h]
  · intro cached bTTL nTTL now bF nF hn hf
    have h := (hna nF hf).1
    simp [checkDnc, hn, h]

/-- Witness for C4: a transport failure on an empty cache degrades both
flags to false with errors populated. -/
theorem checkers_fail_open_witness :
    ((checkCompanyBlacklistAPI (.failure "net down")).isOnList = false ∧
      (checkCompanyBlacklistAPI (.failure "net down")).error.isSome = true) ∧
    ((checkNationalDNCAPI (.failure "net down")).isOnList = false ∧
      (checkNationalDNCAPI (.failure "net down")).error.isSome = true) ∧
    (checkDnc none 12 12 0 (.failure "net down") (.failure "net down")).result.isBlacklist =
      false ∧
    (checkDnc none 12 12 0 (.failure "net down") (.failure "net down")).result.isNationalDnc =
      false :=
  ⟨checkers_fail_open.1 (.failure "net down") rfl,
   checkers_fail_open.2.1 (.failure "net down") rfl,
   checkers_fail_open.2.2.1 none 12 12 0 (.failure "net down") (.failure "net down") rfl rfl,
   checkers_fail_open.2.2.2 none 12 12 0 (.failure "net down") (.failure "net down") rfl rfl⟩

/-- Claim C5: the tag set written by `updateContactDNC` is the deduplicated
union of the contact's current tags and the newly computed DNC tags —
membership in the written list is exactly membership in one of the two
inputs, the written list has no duplicates, and on the spec's example
(current tags `vip`, `spanish-speaker`, blacklisted verdict) the written
set is exactly those two plus `DNC-USHEALTH`. -/
theorem updateContactDNC_merges_tags :
    (∀ (current : List String) (isB isN wOk : Bool) (tag : String),
      (tag ∈ (updateContactDNC (some current) (computeDncTags isB isN) wOk).1.tags ↔
        tag ∈ current ∨ tag ∈ computeDncTags isB isN) ∧
      ((updateContactDNC (some current) (computeDncTags isB isN) wOk).1.tags).Nodup) ∧
    (updateContactDNC (some ["vip", "spanish-speaker"]) (computeDncTags true false) true).1.tags =
      ["vip", "spanish-speaker", "DNC-USHEALTH"] := by
  constructor
  · intro current isB isN wOk tag
    constructor
    · show tag ∈ jsSetOf (current ++ computeDncTags isB isN) ↔ _
      rw [mem_jsSetOf, List.mem_append]
    · exact nodup_jsSetOf _
  · decide

/-- Claim C9: `updateContactDNC` is idempotent — applying it a second time
with the same verdict-derived tags, against the tag set the first call
wrote, produces an identical update payload (same final tag set, DND
re-asserted to the same state). -/
theorem updateContactDNC_idempotent (current : List String) (isB isN : Bool) :
    (updateContactDNC
      (some (updateContactDNC (some current) (computeDncTags isB isN) true).1.tags)
      (computeDncTags isB isN) true).1 =
    (updateContactDNC (some current) (computeDncTags isB isN) true).1 := by
  have hsub : ∀ x ∈ computeDncTags isB isN,
      x ∈ jsSetOf (jsSetOf (current ++ computeDncTags isB isN)) := by
    intro x hx
    rw [jsSetOf_idem, mem_jsSetOf, List.mem_append]
    exact Or.inr hx
  have habs : jsSetOf (jsSetOf (current ++ computeDncTags isB isN) ++ computeDncTags isB isN) =
      jsSetOf (current ++ computeDncTags isB isN) := by
    rw [jsSetOf_append_absorb _ _ hsub, jsSetOf_idem]
  simp [updateContactDNC, habs]

/-- Claim C6: a processed event whose contact already carries both DNC tags
short-circuits before the Orchestrator: `checkDnc` is never invoked (it
is the only site that reads the DNC cache or calls a remote list, so no
cache read and no remote call occurs), no contact write is issued, the
response is the already-tagged skip, and the one emitted log record has
`cache_status = "skipped_tagged"`. -/
theorem handler_skips_already_tagged (env : HandlerEnv) (c : ContactRead)
    (hm : env.method = "POST") (he : env.eventType = "OutboundMessage")
    (hl : jsStrTruthy env.locationId = true) (hc : jsStrTruthy env.contactId = true)
    (hi : env.installationFound = true) (ht : jsStrTruthy env.accessToken = true)
    (hf : env.contactFetch = some c) (hp : jsStrTruthy c.phone = true)
    (hu : DNC_TAG_USHEALTH ∈ c.tags.getD []) (hn : DNC_TAG_NATIONAL ∈ c.tags.getD []) :
    (handler env).dnc = none ∧
    (handler env).response = .skippedAlreadyTagged [DNC_TAG_USHEALTH, DNC_TAG_NATIONAL] ∧
    (handler env).contactWrite = none ∧
    (handler env).logs = [skippedTaggedLog] := by
  have hres : handler env =
      { response := .skippedAlreadyTagged [DNC_TAG_USHEALTH, DNC_TAG_NATIONAL],
        logs := [skippedTaggedLog] } := by
    unfold handler
    rw [hm, he, hf]
    simp only [hl, hc, hi, ht, hp]
    simp [hu, hn]
  rw [hres]
  exact ⟨rfl, rfl, rfl, rfl⟩

/-- Witness for C6: the concrete already-tagged environment is skipped with
the `skipped_tagged` log and no orchestrator run. -/
theorem handler_skips_already_tagged_witness :
    (handler alreadyTaggedEnv).dnc = none ∧
    (handler alreadyTaggedEnv).response =
      .skippedAlreadyTagged [DNC_TAG_USHEALTH, DNC_TAG_NATIONAL] ∧
    (handler alreadyTaggedEnv).contactWrite = none ∧
    (handler alreadyTaggedEnv).logs = [skippedTaggedLog] :=
  handler_skips_already_tagged alreadyTaggedEnv alreadyTaggedContact rfl rfl (by decide)
    (by decide) rfl (by decide) rfl (by decide) (by decide) (by decide)

/-- Claim C8: the per-list cache writes have disjoint frames.  Every row of
the table after `updateBlacklist` is an untouched row of a different
phone, the matching row with only its two blacklist columns overwritten
(all national columns visibly inherited from the old row), or — when the
phone had no row — a fresh row whose national columns are at their
migration defaults; `updateNational` is the exact mirror. -/
theorem cache_update_frames :
    (∀ (t : DncTable) (p : String) (isOn : Bool) (now : Int) (r' : DncRow),
      r' ∈ updateBlacklist t p isOn now →
        (r' ∈ t ∧ r'.phone ≠ p) ∨
        (∃ r, r ∈ t ∧ r.phone = p ∧ r' = blacklistPatched r isOn now) ∨
        ((∀ r ∈ t, r.phone ≠ p) ∧ r' = blacklistInserted p isOn now)) ∧
    (∀ (t : DncTable) (p : String) (isOn : Bool) (reason expiry : Option String) (now : Int)
        (r' : DncRow),
      r' ∈ updateNational t p isOn reason expiry now →
        (r' ∈ t ∧ r'.phone ≠ p) ∨
        (∃ r, r ∈ t ∧ r.phone = p ∧ r' = nationalPatched r isOn reason expiry now) ∨
        ((∀ r ∈ t, r.phone ≠ p) ∧ r' = nationalInserted p isOn reason expiry now)) := by
  constructor
  · intro t p isOn now r' hmem
    unfold updateBlacklist upsertDnc at hmem
    by_cases hany : t.any (fun r => r.phone == p) = true
    · rw [if_pos hany] at hmem
      rcases List.mem_map.mp hmem with ⟨r, hr, hfr⟩
      by_cases hp : r.phone = p
      · right; left
        refine ⟨r, hr, hp, ?_⟩
        rw [← hfr]
        simp [hp, applyPatch, blacklistPatched]
      · have hcond : ¬((r.phone == p) = true) := by simp [hp]
        left
        rw [← hfr, if_neg hcond]
        exact ⟨hr, hp⟩
    · rw [if_neg hany] at hmem
      rcases List.mem_append.mp hmem with hin | hnew
      · left
        refine ⟨hin, ?_⟩
        intro he
        exact hany (List.any_eq_true.mpr ⟨r', hin, by simp [he]⟩)
      · right; right
        constructor
        · intro r hr he
          exact hany (List.any_eq_true.mpr ⟨r, hr, by simp [he]⟩)
        · simpa [newRowFromPatch, blacklistInserted] using List.mem_singleton.mp hnew
  · intro t p isOn reason expiry now r' hmem
    unfold updateNational upsertDnc at hmem
    by_cases hany : t.any (fun r => r.phone == p) = true
    · rw [if_pos hany] at hmem
      rcases List.mem_map.mp hmem with ⟨r, hr, hfr⟩
      by_cases hp : r.phone = p
      · right; left
        refine ⟨r, hr, hp, ?_⟩
        rw [← hfr]
        simp [hp, applyPatch, nationalPatched]
      · have hcond : ¬((r.phone == p) = true) := by simp [hp]
        left
        rw [← hfr, if_neg hcond]
        exact ⟨hr, hp⟩
    · rw [if_neg hany] at hmem
      rcases List.mem_append.mp hmem with hin | hnew
      · left
        refine ⟨hin, ?_⟩
        intro he
        exact hany (List.any_eq_true.mpr ⟨r', hin, by simp [he]⟩)
      · right; right
        constructor
        · intro r hr he
          exact hany (List.any_eq_true.mpr ⟨r, hr, by simp [he]⟩)
        · simpa [newRowFromPatch, nationalInserted] using List.mem_singleton.mp hnew

/-- Witness for C8: on the empty table `updateBlacklist` inserts the fresh
row with national columns at defaults, and `updateNational` the mirror
row with blacklist columns at defaults. -/
theorem cache_update_frames_witness :
    (((blacklistInserted "5551234567" true 5) ∈ ([] : DncTable) ∧
        (blacklistInserted "5551234567" true 5).phone ≠ "5551234567") ∨
      (∃ r, r ∈ ([] : DncTable) ∧ r.phone = "5551234567" ∧
        blacklistInserted "5551234567" true 5 = blacklistPatched r true 5) ∨
      ((∀ r ∈ ([] : DncTable), r.phone ≠ "5551234567") ∧
        blacklistInserted "5551234567" true 5 = blacklistInserted "5551234567" true 5)) ∧
    (((nationalInserted "5551234567" true (some "FED") none 5) ∈ ([] : DncTable) ∧
        (nationalInserted "5551234567" true (some "FED") none 5).phone ≠ "5551234567") ∨
      (∃ r, r ∈ ([] : DncTable) ∧ r.phone = "5551234567" ∧
        nationalInserted "5551234567" true (some "FED") none 5 =
          nationalPatched r true (some "FED") none 5) ∨
      ((∀ r ∈ ([] : DncTable), r.phone ≠ "5551234567") ∧
        nationalInserted "5551234567" true (some "FED") none 5 =
          nationalInserted "5551234567" true (some "FED") none 5)) :=
  ⟨cache_update_frames.1 [] "5551234567" true 5 (blacklistInserted "5551234567" true 5)
      (by decide),
   cache_update_frames.2 [] "5551234567" true (some "FED") none 5
      (nationalInserted "5551234567" true (some "FED") none 5) (by decide)⟩

/-- Claim C10: when a stale list's checker fails, `checkDnc` still issues
the cache write for that list with `isOnList = false`; applying that
write to any table with unique phones leaves a row whose flag is `false`
and whose `checkedAt` is `now`, and any later `checkDnc` run within that
list's TTL finds the slot fresh and does not invoke that list's checker
again. -/
theorem checkDnc_failure_writes_fresh_cache :
    (∀ (cached : Option DncRow) (bTTL nTTL now : Int) (bF : FetchResult BlacklistBody)
        (nF : FetchResult NationalBody),
      blacklistFreshOf cached bTTL now = false → bF.failed = true →
        (checkDnc cached bTTL nTTL now bF nF).effects.blacklistWrite = some false ∧
        (∀ (t : DncTable) (p : String), phoneUnique t →
          ∃ r', dncCacheGet (updateBlacklist t p false now) p = some r' ∧
            r'.is_company_blacklist = false ∧ r'.blacklist_checked_at = some now ∧
            (∀ (bTTL' now' : Int), now' - now < bTTL' * 60 * 60 * 1000 →
              ∀ (nTTL' : Int) (bF' : FetchResult BlacklistBody)
                  (nF' : FetchResult NationalBody),
                (checkDnc (dncCacheGet (updateBlacklist t p false now) p) bTTL' nTTL' now'
                  bF' nF').effects.blacklistCalled = false))) ∧
    (∀ (cached : Option DncRow) (bTTL nTTL now : Int) (bF : FetchResult BlacklistBody)
        (nF : FetchResult NationalBody),
      nationalFreshOf cached nTTL now = false → nF.failed = true →
        (checkDnc cached bTTL nTTL now bF nF).effects.nationalWrite =
          some (false, none, none) ∧
        (∀ (t : DncTable) (p : String) (reason expiry : Option String), phoneUnique t →
          ∃ r', dncCacheGet (updateNational t p false reason expiry now) p = some r' ∧
            r'.is_national_dnc = false ∧ r'.national_checked_at = some now ∧
            (∀ (nTTL' now' : Int), now' - now < nTTL' * 60 * 60 * 1000 →
              ∀ (bTTL' : Int) (bF' : FetchResult BlacklistBody)
                  (nF' : FetchResult NationalBody),
                (checkDnc (dncCacheGet (updateNational t p false reason expiry now) p) bTTL'
                  nTTL' now' bF' nF').effects.nationalCalled = false))) := by
  have hbl : ∀ (f : FetchResult BlacklistBody), f.failed = true →
      (checkCompanyBlacklistAPI f).isOnList = false := by
    intro f hf
    cases f with
    | failure e => rfl
    | success ok status body =>
      cases ok with
      | false => rfl
      | true =>
        cases body with
        | error e => rfl
        | ok data => simp [FetchResult.failed] at hf
  have hna : ∀ (f : FetchResult NationalBody), f.failed = true →
      (checkNationalDNCAPI f).isOnList = false ∧ (checkNationalDNCAPI f).reason = none ∧
        (checkNationalDNCAPI f).expiry = none := by
    intro f hf
    cases f with
    | failure e => exact ⟨rfl, rfl, rfl⟩
    | success ok status body =>
      cases ok with
      | false => exact ⟨rfl, rfl, rfl⟩
      | true =>
        cases body with
        | error e => exact ⟨rfl, rfl, rfl⟩
        | ok data => simp [FetchResult.failed] at hf
  constructor
  · intro cached bTTL nTTL now bF nF hfresh hfail
    constructor
    · simp [checkDnc, hfresh, hbl bF hfail]
    · intro t p hU
      obtain ⟨r', hget, hisOn, hts⟩ := dncCacheGet_updateBlacklist t p false now hU
      refine ⟨r', hget, hisOn, hts, ?_⟩
      intro bTTL' now' hlt nTTL' bF' nF'
      have hfresh' : blacklistFreshOf (dncCacheGet (updateBlacklist t p false now) p)
          bTTL' now' = true := by
        rw [hget]
        simp [blacklistFreshOf, isFresh, hts]
        exact hlt
      simp [checkDnc, hfresh']
  · intro cached bTTL nTTL now bF nF hfresh hfail
    constructor
    · obtain ⟨h1, h2, h3⟩ := hna nF hfail
      simp [checkDnc, hfresh, h1, h2, h3]
    · intro t p reason expiry hU
      obtain ⟨r', hget, hisOn, hts⟩ := dncCacheGet_updateNational t p false reason expiry now hU
      refine ⟨r', hget, hisOn, hts, ?_⟩
      intro nTTL' now' hlt bTTL' bF' nF'
      have hfresh' : nationalFreshOf (dncCacheGet (updateNational t p false reason expiry now) p)
          nTTL' now' = true := by
        rw [hget]
        simp [nationalFreshOf, isFresh, hts]
        exact hlt
      simp [checkDnc, hfresh']

/-- Witness for C10: with an empty cache and both fetches failing, both
degraded cache writes are issued with `isOnList = false`. -/
theorem checkDnc_failure_writes_fresh_cache_witness :
    (checkDnc none 12 12 0 (.failure "down") (.failure "down")).effects.blacklistWrite =
      some false ∧
    (checkDnc none 12 12 0 (.failure "down") (.failure "down")).effects.nationalWrite =
      some (false, none, none) :=
  ⟨(checkDnc_failure_writes_fresh_cache.1 none 12 12 0 (.failure "down") (.failure "down")
      rfl rfl).1,
   (checkDnc_failure_writes_fresh_cache.2 none 12 12 0 (.failure "down") (.failure "down")
      rfl rfl).1⟩

end Cadence
